import Mathlib

/-!
# orders-api: the task handlers of main.go

A shallow embedding of the five HTTP handlers of `src/main.go` (getTasks, getTask,
createTask, updateTask, deleteTask) and of their two response helpers (writeError,
writeJSON), followed by the properties of the specification that concern them.

The handlers talk to two collaborators that are libraries, not code of the repository:

* the `http.ResponseWriter` of net/http, embedded as `ResponseWriter` below with the
  three rules of that library that the handlers depend on;
* the MongoDB collection, embedded as a record of operations `Collection σ` over an
  arbitrary store state `σ`, so that a statement about every `Collection` is a statement
  about every store outcome. `mapStore` is one instance: a map from primary key to
  document.
-/

namespace OrdersApi

/-! ## Data model -/

/-- A time.Time value: an absolute instant, counted in nanoseconds from the zero Time. -/
structure Time where
  ns : Nat
  deriving DecidableEq, Repr

/-- The zero value of time.Time, which a Task holds until CreatedAt is assigned. -/
def Time.zero : Time := ⟨0⟩

/-- A BSON datetime, the form in which the store keeps an instant: whole milliseconds,
counted here from the zero Time as well. -/
structure DateTime where
  ms : Nat
  deriving DecidableEq, Repr

/-- The datetime the driver builds from a time.Time: the nanoseconds below the millisecond
are dropped. -/
def Time.toDateTime (t : Time) : DateTime := ⟨t.ns / 1000000⟩

/-- The time.Time the driver builds from a stored datetime. -/
def DateTime.toTime (d : DateTime) : Time := ⟨d.ms * 1000000⟩

/-- An instant after a round trip through the store: truncated to the millisecond. -/
def Time.truncated (t : Time) : Time := t.toDateTime.toTime

/-- The Task struct of main.go, lines 19 to 24. -/
structure Task where
  ID : String
  Name : String
  Completed : Bool
  CreatedAt : Time
  deriving DecidableEq, Repr

/-- A JSON value. `time t` stands for the RFC 3339 string that time.Time marshals to, with
its nanoseconds. -/
inductive JSON where
  | null
  | bool (b : Bool)
  | str (s : String)
  | time (t : Time)
  | arr (elems : List JSON)
  | obj (fields : List (String × JSON))
  deriving Repr

/-- A Go slice of Tasks. `nil` is the value of `var tasks []Task`. -/
inductive TaskSlice where
  | nil
  | elems (ts : List Task)
  deriving DecidableEq, Repr

/-- The Go builtin `append(tasks, task)`. -/
def TaskSlice.append : TaskSlice → Task → TaskSlice
  | .nil, t => .elems [t]
  | .elems ts, t => .elems (ts ++ [t])

/-- The values the handlers pass to the JSON encoder as `interface{}`. -/
inductive Data where
  | nil
  | errorMessage (message : String)
  | task (t : Task)
  | tasks (ts : TaskSlice)
  deriving DecidableEq, Repr

/-- Marshals a Task by its json tags: `id,omitempty`, `name`, `completed`, `createdAt`. -/
def marshalTask (t : Task) : JSON :=
  .obj ((if t.ID = "" then [] else [("id", .str t.ID)]) ++
    [("name", .str t.Name), ("completed", .bool t.Completed), ("createdAt", .time t.CreatedAt)])

/-- The encoding json.Marshal gives each value: nil and the nil slice are the null literal,
`map[string]string{"error": message}` is an object with the one attribute `error`. -/
def marshal : Data → JSON
  | .nil => .null
  | .errorMessage message => .obj [("error", .str message)]
  | .task t => marshalTask t
  | .tasks .nil => .null
  | .tasks (.elems ts) => .arr (ts.map marshalTask)

/-- A request body that decodes: a JSON object reduced to the four attributes the Task
struct declares, each present or absent. -/
structure TaskBody where
  id : Option String
  name : Option String
  completed : Option Bool
  createdAt : Option Time
  deriving DecidableEq, Repr

/-- The request as the handlers read it: `chi.URLParam(r, "id")` and the body, where
`none` is a body on which `Decode` reports an error (empty, or not JSON for a Task). -/
structure Request where
  id : String
  Body : Option TaskBody
  deriving DecidableEq, Repr

/-- The effect of `json.NewDecoder(r.Body).Decode(&task)` on `var task Task`: an attribute
that is present sets its field, an absent one leaves the zero value. -/
def decodeTask : Option TaskBody → Option Task
  | none => none
  | some b => some
      { ID := b.id.getD "", Name := b.name.getD "",
        Completed := b.completed.getD false, CreatedAt := b.createdAt.getD Time.zero }

/-! ## The response writer of net/http -/

def StatusOK : Nat := 200
def StatusCreated : Nat := 201
def StatusNoContent : Nat := 204
def StatusBadRequest : Nat := 400
def StatusNotFound : Nat := 404
def StatusInternalServerError : Nat := 500

/-- The http.ResponseWriter handed to a handler.

* `handlerHeader` is the map `w.Header()` returns;
* `sentHeader` is the copy of it taken when the status line is written: the header set
  of the response;
* `body` is the sequence of JSON documents accepted by `Write`, each standing for its
  text followed by a newline, so the empty sequence is a body of zero bytes;
* `refused` is the sequence of documents offered to `Write` and not written, because the
  status allows no body;
* `writeHeaderCalls` records every call of `WriteHeader`, effective or not. -/
structure ResponseWriter where
  handlerHeader : List (String × String)
  wroteHeader : Bool
  status : Nat
  sentHeader : List (String × String)
  body : List JSON
  refused : List JSON
  writeHeaderCalls : List Nat

/-- The writer a handler receives: nothing set, nothing written. -/
def ResponseWriter.fresh : ResponseWriter :=
  { handlerHeader := [], wroteHeader := false, status := 0, sentHeader := [],
    body := [], refused := [], writeHeaderCalls := [] }

/-- The call `w.Header().Set(key, value)`: the entry replaces any earlier one. -/
def ResponseWriter.HeaderSet (w : ResponseWriter) (key value : String) : ResponseWriter :=
  { w with handlerHeader := (key, value) :: w.handlerHeader.filter (fun e => e.1 ≠ key) }

/-- The call `w.WriteHeader(code)`: the first call fixes the status and copies the header
map; a later call changes nothing. -/
def ResponseWriter.WriteHeader (w : ResponseWriter) (code : Nat) : ResponseWriter :=
  if w.wroteHeader then
    { w with writeHeaderCalls := w.writeHeaderCalls ++ [code] }
  else
    { w with
      wroteHeader := true, status := code, sentHeader := w.handlerHeader,
      writeHeaderCalls := w.writeHeaderCalls ++ [code] }

/-- The net/http rule for which statuses may carry a body: not 1xx, 204 or 304. -/
def bodyAllowedForStatus (status : Nat) : Bool :=
  if 100 ≤ status ∧ status ≤ 199 then false
  else if status = 204 then false
  else if status = 304 then false
  else true

/-- The call `w.Write(p)` for the text of one JSON document: an implicit `WriteHeader(200)`
when no status was written, then the text is appended unless the status allows no body,
in which case nothing is written, the document is noted as refused, and the error
ErrBodyNotAllowed (`true`) is returned. -/
def ResponseWriter.Write (w : ResponseWriter) (doc : JSON) : ResponseWriter × Bool :=
  let w := if w.wroteHeader then w else w.WriteHeader StatusOK
  if bodyAllowedForStatus w.status then ({ w with body := w.body ++ [doc] }, false)
  else ({ w with refused := w.refused ++ [doc] }, true)

/-- The call `json.NewEncoder(w).Encode(data)`: one `Write` of the marshalled value. -/
def Encode (w : ResponseWriter) (data : Data) : ResponseWriter × Bool :=
  w.Write (marshal data)

/-- The function writeError of main.go, lines 165 to 170. The error of Encode is dropped. -/
def writeError (w : ResponseWriter) (status : Nat) (message : String) : ResponseWriter :=
  let w := w.WriteHeader status
  let w := w.HeaderSet "Content-Type" "application/json"
  (Encode w (.errorMessage message)).1

/-- The function writeJSON of main.go, lines 172 to 176. The error of Encode is dropped. -/
def writeJSON (w : ResponseWriter) (status : Nat) (data : Data) : ResponseWriter :=
  let w := w.WriteHeader status
  let w := w.HeaderSet "Content-Type" "application/json"
  (Encode w data).1

/-! ## The store -/

/-- The document `bson.Marshal` builds from a Task by its bson tags: `_id,omitempty`,
`name`, `completed`, `createdAt`. -/
structure Doc where
  _id : Option String
  name : String
  completed : Bool
  createdAt : DateTime
  deriving DecidableEq, Repr

/-- Marshals a Task for the store: an empty ID is left out of the document, and CreatedAt
becomes a datetime of whole milliseconds. -/
def bsonMarshal (t : Task) : Doc :=
  { _id := if t.ID = "" then none else some t.ID,
    name := t.Name, completed := t.Completed, createdAt := t.CreatedAt.toDateTime }

/-- A primary key: a string, or the native 12-byte ObjectID (as a number). -/
inductive Key where
  | str (s : String)
  | objectID (n : Nat)
  deriving DecidableEq, Repr

/-- The errors a store operation reports: mongo.ErrNoDocuments, or any other failure
(transport, decoding, an expired deadline, a write error). -/
inductive StoreError where
  | noDocuments
  | other (reason : String)
  deriving DecidableEq, Repr

/-- The cursor a successful `Find` returns: the rows for which `cur.Next(ctx)` is true,
each with the outcome of `cur.Decode(&task)` (`none` when the row does not decode), and
the value of `cur.Err()` once `Next` is false: `none` at the end of the data, an error
when the scan broke off while iterating. -/
structure Cursor where
  rows : List (Option Task)
  Err : Option StoreError
  deriving DecidableEq, Repr

/-- The operations the handlers call on the collection, over a store state `σ`.

* `Find` is `collection.Find(ctx, bson.M{})`: an error, or a cursor;
* `FindOne id` is `collection.FindOne(ctx, bson.M{"_id": id}).Decode(&task)`;
* `InsertOne doc` returns `result.InsertedID`;
* `ReplaceOne id doc` and `DeleteOne id` filter on `bson.M{"_id": id}`; their results
  are not read by the handlers.

Every operation runs under a context with a deadline of five seconds; a deadline that
expires shows as an error of the operation. -/
structure Collection (σ : Type) where
  Find : σ → Except StoreError Cursor × σ
  FindOne : String → σ → Except StoreError Task × σ
  InsertOne : Doc → σ → Except StoreError Key × σ
  ReplaceOne : String → Doc → σ → Except StoreError Unit × σ
  DeleteOne : String → σ → Except StoreError Unit × σ

/-! ## The handlers -/

/-- What a handler leaves behind: the response writer, the store, and whether the handler
ended in a panic instead of returning. -/
structure Outcome (σ : Type) where
  w : ResponseWriter
  store : σ
  panicked : Bool

/-- The loop of getTasks, lines 72 to 80, over the rows of the cursor: `none` when a row
fails to decode. -/
def getTasksLoop : List (Option Task) → TaskSlice → Option TaskSlice
  | [], tasks => some tasks
  | none :: _, _ => none
  | some task :: rest, tasks => getTasksLoop rest (tasks.append task)

/-- The handler getTasks of main.go, lines 59 to 83. It does not read `cur.Err()`. -/
def getTasks {σ : Type} (C : Collection σ) (w : ResponseWriter) (_r : Request) (s : σ) :
    Outcome σ :=
  match C.Find s with
  | (.error _, s) =>
      ⟨writeError w StatusInternalServerError "Failed to fetch tasks", s, false⟩
  | (.ok cur, s) =>
      match getTasksLoop cur.rows .nil with
      | none => ⟨writeError w StatusInternalServerError "Failed to decode tasks", s, false⟩
      | some tasks => ⟨writeJSON w StatusOK (.tasks tasks), s, false⟩

/-- The handler getTask of main.go, lines 85 to 100. -/
def getTask {σ : Type} (C : Collection σ) (w : ResponseWriter) (r : Request) (s : σ) :
    Outcome σ :=
  match C.FindOne r.id s with
  | (.error _, s) => ⟨writeError w StatusNotFound "Task not found", s, false⟩
  | (.ok task, s) => ⟨writeJSON w StatusOK (.task task), s, false⟩

/-- The handler createTask of main.go, lines 102 to 124; `now` is the reading of
`time.Now()`. The assertion `result.InsertedID.(string)` panics on a key that is not a
string. -/
def createTask {σ : Type} (C : Collection σ) (now : Time) (w : ResponseWriter) (r : Request)
    (s : σ) : Outcome σ :=
  match decodeTask r.Body with
  | none => ⟨writeError w StatusBadRequest "Invalid request payload", s, false⟩
  | some task =>
      let task := { task with CreatedAt := now }
      match C.InsertOne (bsonMarshal task) s with
      | (.error _, s) =>
          ⟨writeError w StatusInternalServerError "Failed to create task", s, false⟩
      | (.ok (.str id), s) => ⟨writeJSON w StatusCreated (.task { task with ID := id }), s, false⟩
      | (.ok (.objectID _), s) => ⟨w, s, true⟩

/-- The handler updateTask of main.go, lines 126 to 147. -/
def updateTask {σ : Type} (C : Collection σ) (w : ResponseWriter) (r : Request) (s : σ) :
    Outcome σ :=
  match decodeTask r.Body with
  | none => ⟨writeError w StatusBadRequest "Invalid request payload", s, false⟩
  | some task =>
      match C.ReplaceOne r.id (bsonMarshal task) s with
      | (.error _, s) =>
          ⟨writeError w StatusInternalServerError "Failed to update task", s, false⟩
      | (.ok _, s) => ⟨writeJSON w StatusOK (.task task), s, false⟩

/-- The handler deleteTask of main.go, lines 149 to 163. -/
def deleteTask {σ : Type} (C : Collection σ) (w : ResponseWriter) (r : Request) (s : σ) :
    Outcome σ :=
  match C.DeleteOne r.id s with
  | (.error _, s) =>
      ⟨writeError w StatusInternalServerError "Failed to delete task", s, false⟩
  | (.ok _, s) => ⟨writeJSON w StatusNoContent .nil, s, false⟩

/-! ## A store that is a map from primary key to document -/

/-- A document as the collection keeps it: the primary key and the three other fields. -/
structure StoredDoc where
  _id : Key
  name : String
  completed : Bool
  createdAt : DateTime
  deriving DecidableEq, Repr

/-- The state of the map store: its documents, at most one per key, in insertion order,
and the number from which the next ObjectID is made. -/
structure MapStore where
  docs : List StoredDoc
  nextObjectID : Nat
  deriving DecidableEq, Repr

/-- The document stored under a key, if any. -/
def MapStore.lookup (s : MapStore) (k : Key) : Option StoredDoc :=
  s.docs.find? (fun d => d._id = k)

/-- One hexadecimal digit, in lower case. -/
def hexDigit (n : Nat) : Char :=
  if n < 10 then Char.ofNat (48 + n) else Char.ofNat (87 + n)

/-- The last `k` hexadecimal digits of `n`, most significant first. -/
def hexDigits : Nat → Nat → List Char
  | 0, _ => []
  | k + 1, n => hexDigits k (n / 16) ++ [hexDigit (n % 16)]

/-- The 24 hexadecimal digits of an ObjectID. -/
def objectIDHex (n : Nat) : String := String.mk (hexDigits 24 n)

/-- Decoding a stored document into a Task: a string key is the ID, an ObjectID decodes
into the string field ID as its 24 hexadecimal digits, and the datetime becomes a
time.Time. -/
def decodeStored (d : StoredDoc) : Task :=
  match d._id with
  | .str id => ⟨id, d.name, d.completed, d.createdAt.toTime⟩
  | .objectID n => ⟨objectIDHex n, d.name, d.completed, d.createdAt.toTime⟩

/-- The key under which a document is inserted: its own `_id`, or a new ObjectID. -/
def MapStore.insertKey (s : MapStore) (doc : Doc) : Key :=
  match doc._id with
  | some id => .str id
  | none => .objectID s.nextObjectID

/-- The map store as a collection.

* Find yields every document, in order, and never breaks off;
* FindOne matches a string key only, as the filter value is a string;
* InsertOne refuses a key that is already present, stores the document otherwise and
  reports the key;
* ReplaceOne without upsert: no match changes nothing and is no error; a replacement
  that names another `_id` is refused; otherwise the fields are replaced, `_id` kept;
* DeleteOne removes the document under the key, and is no error when there is none. -/
def mapStore : Collection MapStore where
  Find s := (.ok ⟨s.docs.map (fun d => some (decodeStored d)), none⟩, s)
  FindOne id s :=
    match s.lookup (.str id) with
    | none => (.error .noDocuments, s)
    | some d => (.ok ⟨id, d.name, d.completed, d.createdAt.toTime⟩, s)
  InsertOne doc s :=
    match s.lookup (s.insertKey doc) with
    | some _ => (.error (.other "duplicate key"), s)
    | none =>
        (.ok (s.insertKey doc),
          { docs := s.docs ++ [⟨s.insertKey doc, doc.name, doc.completed, doc.createdAt⟩],
            nextObjectID := if doc._id.isSome then s.nextObjectID else s.nextObjectID + 1 })
  ReplaceOne id doc s :=
    match s.lookup (.str id) with
    | none => (.ok (), s)
    | some _ =>
        if doc._id.isSome ∧ doc._id ≠ some id then (.error (.other "_id is immutable"), s)
        else
          (.ok (),
            { s with
              docs := s.docs.map (fun d =>
                if d._id = .str id then ⟨.str id, doc.name, doc.completed, doc.createdAt⟩
                else d) })
  DeleteOne id s := (.ok (), { s with docs := s.docs.filter (fun d => d._id ≠ .str id) })

/-- A collection every operation of which fails with an error other than ErrNoDocuments,
as when the connection to the database is lost. -/
def failingStore : Collection Unit where
  Find s := (.error (.other "connection reset"), s)
  FindOne _ s := (.error (.other "connection reset"), s)
  InsertOne _ s := (.error (.other "connection reset"), s)
  ReplaceOne _ _ s := (.error (.other "connection reset"), s)
  DeleteOne _ s := (.error (.other "connection reset"), s)

/-- A collection whose scan breaks off while iterating: `Find` succeeds, the cursor yields
one Task, then `Next` is false and `cur.Err()` holds the error. -/
def brokenCursorStore : Collection Unit where
  Find s := (.ok ⟨[some ⟨"1", "a", false, ⟨7000000⟩⟩], some (.other "connection reset")⟩, s)
  FindOne _ s := (.error (.other "connection reset"), s)
  InsertOne _ s := (.error (.other "connection reset"), s)
  ReplaceOne _ _ s := (.error (.other "connection reset"), s)
  DeleteOne _ s := (.error (.other "connection reset"), s)

/-- A collection whose second document is not a Task document (its `completed` is a
number), so that the second row of the cursor does not decode. -/
def foreignRowStore : Collection Unit where
  Find s := (.ok ⟨[some ⟨"1", "a", false, ⟨7000000⟩⟩, none], none⟩, s)
  FindOne _ s := (.error .noDocuments, s)
  InsertOne _ s := (.error (.other "connection reset"), s)
  ReplaceOne _ _ s := (.ok (), s)
  DeleteOne _ s := (.ok (), s)

/-! ## Recording the calls a handler makes -/

/-- One call on the collection, with its arguments. -/
inductive StoreCall where
  | Find
  | FindOne (id : String)
  | InsertOne (doc : Doc)
  | ReplaceOne (id : String) (doc : Doc)
  | DeleteOne (id : String)
  deriving DecidableEq, Repr

/-- The same collection, with every call appended to a log kept beside the state. -/
def Collection.logged {σ : Type} (C : Collection σ) : Collection (σ × List StoreCall) where
  Find s := ((C.Find s.1).1, ((C.Find s.1).2, s.2 ++ [.Find]))
  FindOne id s := ((C.FindOne id s.1).1, ((C.FindOne id s.1).2, s.2 ++ [.FindOne id]))
  InsertOne doc s :=
    ((C.InsertOne doc s.1).1, ((C.InsertOne doc s.1).2, s.2 ++ [.InsertOne doc]))
  ReplaceOne id doc s :=
    ((C.ReplaceOne id doc s.1).1, ((C.ReplaceOne id doc s.1).2, s.2 ++ [.ReplaceOne id doc]))
  DeleteOne id s := ((C.DeleteOne id s.1).1, ((C.DeleteOne id s.1).2, s.2 ++ [.DeleteOne id]))

/-! ## What a response is -/

/-- The JSON object `{"error": message}`. -/
def errorBody (message : String) : JSON := .obj [("error", .str message)]

/-- The writer holds exactly one response: one call of WriteHeader, with `status`, which
is the status sent, and a body that is the one document `doc`. -/
def RespondsOnly (w : ResponseWriter) (status : Nat) (doc : JSON) : Prop :=
  w.writeHeaderCalls = [status] ∧ w.status = status ∧ w.body = [doc]

end OrdersApi

namespace OrdersApi

/-! ## The response helpers on a fresh writer -/

theorem writeError_fresh (status : Nat) (message : String)
    (h : bodyAllowedForStatus status = true) :
    writeError .fresh status message =
      { handlerHeader := [("Content-Type", "application/json")], wroteHeader := true,
        status := status, sentHeader := [], body := [errorBody message], refused := [],
        writeHeaderCalls := [status] } := by
  simp [writeError, Encode, ResponseWriter.Write, ResponseWriter.WriteHeader,
    ResponseWriter.HeaderSet, ResponseWriter.fresh, marshal, errorBody, h]

theorem writeJSON_fresh (status : Nat) (data : Data)
    (h : bodyAllowedForStatus status = true) :
    writeJSON .fresh status data =
      { handlerHeader := [("Content-Type", "application/json")], wroteHeader := true,
        status := status, sentHeader := [], body := [marshal data], refused := [],
        writeHeaderCalls := [status] } := by
  simp [writeJSON, Encode, ResponseWriter.Write, ResponseWriter.WriteHeader,
    ResponseWriter.HeaderSet, ResponseWriter.fresh, h]

theorem writeJSON_fresh_noContent (data : Data) :
    writeJSON .fresh StatusNoContent data =
      { handlerHeader := [("Content-Type", "application/json")], wroteHeader := true,
        status := StatusNoContent, sentHeader := [], body := [], refused := [marshal data],
        writeHeaderCalls := [StatusNoContent] } := by
  simp [writeJSON, Encode, ResponseWriter.Write, ResponseWriter.WriteHeader,
    ResponseWriter.HeaderSet, ResponseWriter.fresh, bodyAllowedForStatus, StatusNoContent]

theorem writeError_sentHeader (status : Nat) (message : String) :
    (writeError .fresh status message).sentHeader = [] := by
  by_cases h : bodyAllowedForStatus status = true <;>
    simp [writeError, Encode, ResponseWriter.Write, ResponseWriter.WriteHeader,
      ResponseWriter.HeaderSet, ResponseWriter.fresh, h]

theorem writeJSON_sentHeader (status : Nat) (data : Data) :
    (writeJSON .fresh status data).sentHeader = [] := by
  by_cases h : bodyAllowedForStatus status = true <;>
    simp [writeJSON, Encode, ResponseWriter.Write, ResponseWriter.WriteHeader,
      ResponseWriter.HeaderSet, ResponseWriter.fresh, h]

theorem bodyAllowed_200 : bodyAllowedForStatus StatusOK = true := by decide
theorem bodyAllowed_201 : bodyAllowedForStatus StatusCreated = true := by decide
theorem bodyAllowed_400 : bodyAllowedForStatus StatusBadRequest = true := by decide
theorem bodyAllowed_404 : bodyAllowedForStatus StatusNotFound = true := by decide
theorem bodyAllowed_500 : bodyAllowedForStatus StatusInternalServerError = true := by decide

theorem writeError_respondsOnly (status : Nat) (message : String)
    (h : bodyAllowedForStatus status = true) :
    RespondsOnly (writeError .fresh status message) status (errorBody message) := by
  rw [writeError_fresh status message h]
  exact ⟨rfl, rfl, rfl⟩

theorem writeJSON_respondsOnly (status : Nat) (data : Data)
    (h : bodyAllowedForStatus status = true) :
    RespondsOnly (writeJSON .fresh status data) status (marshal data) := by
  rw [writeJSON_fresh status data h]
  exact ⟨rfl, rfl, rfl⟩

/-! ## The loop of getTasks -/

theorem foldl_append_elems (ts xs : List Task) :
    ts.foldl TaskSlice.append (.elems xs) = .elems (xs ++ ts) := by
  induction ts generalizing xs with
  | nil => simp
  | cons t rest ih => simp [TaskSlice.append, ih]

theorem getTasksLoop_all_decode (ts : List Task) (acc : TaskSlice) :
    getTasksLoop (ts.map some) acc = some (ts.foldl TaskSlice.append acc) := by
  induction ts generalizing acc with
  | nil => rfl
  | cons t rest ih => simp [getTasksLoop, ih]

theorem getTasksLoop_nil_all_decode (ts : List Task) :
    getTasksLoop (ts.map some) .nil = some (if ts = [] then .nil else .elems ts) := by
  rw [getTasksLoop_all_decode]
  cases ts with
  | nil => rfl
  | cons t rest => simp [TaskSlice.append, foldl_append_elems]

theorem getTasksLoop_decode_failure (pre : List Task) (post : List (Option Task))
    (acc : TaskSlice) :
    getTasksLoop (pre.map some ++ none :: post) acc = none := by
  induction pre generalizing acc with
  | nil => rfl
  | cons t rest ih => simp [getTasksLoop, ih]

/-! ## C1: the Content-Type header -/

/-- C1, evaluated on the code: whatever the handler, the request and the store, the header
set of the response is empty, so no response carries Content-Type: application/json.
writeError and writeJSON set the header after WriteHeader has copied the header map. -/
theorem C1_sent_header_is_empty {σ : Type} (C : Collection σ) (now : Time) (r : Request)
    (s : σ) :
    (getTasks C .fresh r s).w.sentHeader = [] ∧
    (getTask C .fresh r s).w.sentHeader = [] ∧
    (createTask C now .fresh r s).w.sentHeader = [] ∧
    (updateTask C .fresh r s).w.sentHeader = [] ∧
    (deleteTask C .fresh r s).w.sentHeader = [] := by
  refine ⟨?_, ?_, ?_, ?_, ?_⟩
  · unfold getTasks
    split
    · exact writeError_sentHeader _ _
    · split
      · exact writeError_sentHeader _ _
      · exact writeJSON_sentHeader _ _
  · unfold getTask
    split
    · exact writeError_sentHeader _ _
    · exact writeJSON_sentHeader _ _
  · unfold createTask
    split
    · exact writeError_sentHeader _ _
    · dsimp only
      split
      · exact writeError_sentHeader _ _
      · exact writeJSON_sentHeader _ _
      · rfl
  · unfold updateTask
    split
    · exact writeError_sentHeader _ _
    · split
      · exact writeError_sentHeader _ _
      · exact writeJSON_sentHeader _ _
  · unfold deleteTask
    split
    · exact writeError_sentHeader _ _
    · exact writeJSON_sentHeader _ _

/-! ## C5: the outcomes of getTask -/

/-- C5 as stated fails: when the lookup fails for a reason other than a missing document
(here a lost connection), getTask responds 404 and not 500. -/
theorem C5_store_failure_gives_404 :
    (getTask failingStore .fresh ⟨"1", none⟩ ()).w.status = 404 ∧
    (getTask failingStore .fresh ⟨"1", none⟩ ()).w.status ≠ 500 ∧
    (getTask failingStore .fresh ⟨"1", none⟩ ()).w.body = [errorBody "Task not found"] :=
  ⟨by decide, by decide, rfl⟩

/-- C5 amended: getTask has two outcomes. When the store returns a matching document it
responds 200 with the Task JSON; when the lookup fails, for whatever reason, it responds
404 with the body `{"error":"Task not found"}`. -/
theorem C5_getTask_found_or_404 {σ : Type} (C : Collection σ) (r : Request) (s : σ) :
    (∀ task s', C.FindOne r.id s = (.ok task, s') →
      RespondsOnly (getTask C .fresh r s).w StatusOK (marshalTask task)) ∧
    (∀ e s', C.FindOne r.id s = (.error e, s') →
      RespondsOnly (getTask C .fresh r s).w StatusNotFound (errorBody "Task not found")) := by
  constructor
  · intro task s' h
    simp only [getTask, h]
    exact writeJSON_respondsOnly _ _ bodyAllowed_200
  · intro e s' h
    simp only [getTask, h]
    exact writeError_respondsOnly _ _ bodyAllowed_404

/-- C5 amended, at concrete inputs: a stored document, a missing one, a lost connection. -/
theorem C5_getTask_found_or_404_witness :
    RespondsOnly (getTask mapStore .fresh ⟨"1", none⟩ ⟨[⟨.str "1", "a", false, ⟨7⟩⟩], 0⟩).w
      StatusOK (marshalTask ⟨"1", "a", false, ⟨7000000⟩⟩) ∧
    RespondsOnly (getTask mapStore .fresh ⟨"2", none⟩ ⟨[⟨.str "1", "a", false, ⟨7⟩⟩], 0⟩).w
      StatusNotFound (errorBody "Task not found") ∧
    RespondsOnly (getTask failingStore .fresh ⟨"1", none⟩ ()).w
      StatusNotFound (errorBody "Task not found") :=
  ⟨(C5_getTask_found_or_404 mapStore ⟨"1", none⟩ ⟨[⟨.str "1", "a", false, ⟨7⟩⟩], 0⟩).1 _ _ rfl,
   (C5_getTask_found_or_404 mapStore ⟨"2", none⟩ ⟨[⟨.str "1", "a", false, ⟨7⟩⟩], 0⟩).2 _ _ rfl,
   (C5_getTask_found_or_404 failingStore ⟨"1", none⟩ ()).2 _ _ rfl⟩

/-! ## C6: deleteTask -/

/-- C6: whenever DeleteOne reports no error, whether or not a document matched,
deleteTask responds with status 204 and the body of the response is empty: the null
literal that writeJSON offers to the writer is refused, as 204 allows no body. -/
theorem C6_deleteTask_204_empty_body {σ : Type} (C : Collection σ) (r : Request) (s s' : σ)
    (u : Unit) (h : C.DeleteOne r.id s = (.ok u, s')) :
    (deleteTask C .fresh r s).w.status = 204 ∧
    (deleteTask C .fresh r s).w.writeHeaderCalls = [204] ∧
    (deleteTask C .fresh r s).w.body = [] ∧
    (deleteTask C .fresh r s).w.refused = [JSON.null] ∧
    (deleteTask C .fresh r s).panicked = false ∧
    (deleteTask C .fresh r s).store = s' := by
  simp only [deleteTask, h, writeJSON_fresh_noContent]
  simp [StatusNoContent, marshal]

/-- C6, at a concrete input: the delete of an id that is not in the store. -/
theorem C6_deleteTask_204_empty_body_witness :
    mapStore.DeleteOne "1" ⟨[], 0⟩ = (.ok (), ⟨[], 0⟩) ∧
    (deleteTask mapStore .fresh ⟨"1", none⟩ ⟨[], 0⟩).w.status = 204 ∧
    (deleteTask mapStore .fresh ⟨"1", none⟩ ⟨[], 0⟩).w.body = [] :=
  have h := C6_deleteTask_204_empty_body mapStore ⟨"1", none⟩ ⟨[], 0⟩ ⟨[], 0⟩ () rfl
  ⟨rfl, h.1, h.2.2.1⟩

/-! ## C7: the error table -/

/-- C7 as stated fails: a scan that breaks off while the cursor is iterated is a failed
store scan, yet getTasks answers it with 200 and the Tasks read so far, not with 500
`Failed to fetch tasks`: the error of the cursor is never read. -/
theorem C7_broken_scan_gives_200 :
    brokenCursorStore.Find () =
      (.ok ⟨[some ⟨"1", "a", false, ⟨7000000⟩⟩], some (.other "connection reset")⟩, ()) ∧
    (getTasks brokenCursorStore .fresh ⟨"", none⟩ ()).w.status = 200 ∧
    (getTasks brokenCursorStore .fresh ⟨"", none⟩ ()).w.status ≠ 500 ∧
    (getTasks brokenCursorStore .fresh ⟨"", none⟩ ()).w.writeHeaderCalls = [200] ∧
    (getTasks brokenCursorStore .fresh ⟨"", none⟩ ()).w.body =
      [.arr [marshalTask ⟨"1", "a", false, ⟨7000000⟩⟩]] ∧
    (getTasks brokenCursorStore .fresh ⟨"", none⟩ ()).w.body ≠
      [errorBody "Failed to fetch tasks"] :=
  ⟨rfl, by decide, by decide, by decide, rfl, fun h => by
    have h' : [JSON.arr [marshalTask ⟨"1", "a", false, ⟨7000000⟩⟩]] =
        [errorBody "Failed to fetch tasks"] := h
    simp [errorBody] at h'⟩

/-- C7 amended: every failure that a handler checks is answered with the status and the
JSON body of the error table, and that response is the only one written. A body that does
not decode gives 400 `Invalid request payload` on createTask and on updateTask; a failed
lookup gives 404 `Task not found`; a Find call that returns an error gives 500
`Failed to fetch tasks`; a row that does not decode gives 500 `Failed to decode tasks`,
whatever the cursor holds after it; a failed insert, replace or delete gives 500
`Failed to create task`, `Failed to update task`, `Failed to delete task`. -/
theorem C7_checked_failures_follow_table {σ : Type} (C : Collection σ) (now : Time)
    (r : Request) (s : σ) :
    (r.Body = none →
      RespondsOnly (createTask C now .fresh r s).w 400 (errorBody "Invalid request payload") ∧
      RespondsOnly (updateTask C .fresh r s).w 400 (errorBody "Invalid request payload")) ∧
    (∀ e s', C.FindOne r.id s = (.error e, s') →
      RespondsOnly (getTask C .fresh r s).w 404 (errorBody "Task not found")) ∧
    (∀ e s', C.Find s = (.error e, s') →
      RespondsOnly (getTasks C .fresh r s).w 500 (errorBody "Failed to fetch tasks")) ∧
    (∀ pre post err s', C.Find s = (.ok ⟨List.map some pre ++ none :: post, err⟩, s') →
      RespondsOnly (getTasks C .fresh r s).w 500 (errorBody "Failed to decode tasks")) ∧
    (∀ task e s', decodeTask r.Body = some task →
      C.InsertOne (bsonMarshal { task with CreatedAt := now }) s = (.error e, s') →
      RespondsOnly (createTask C now .fresh r s).w 500 (errorBody "Failed to create task")) ∧
    (∀ task e s', decodeTask r.Body = some task →
      C.ReplaceOne r.id (bsonMarshal task) s = (.error e, s') →
      RespondsOnly (updateTask C .fresh r s).w 500 (errorBody "Failed to update task")) ∧
    (∀ e s', C.DeleteOne r.id s = (.error e, s') →
      RespondsOnly (deleteTask C .fresh r s).w 500 (errorBody "Failed to delete task")) := by
  refine ⟨?_, ?_, ?_, ?_, ?_, ?_, ?_⟩
  · intro h
    simp only [createTask, updateTask, h, decodeTask]
    exact ⟨writeError_respondsOnly _ _ bodyAllowed_400,
      writeError_respondsOnly _ _ bodyAllowed_400⟩
  · intro e s' h
    simp only [getTask, h]
    exact writeError_respondsOnly _ _ bodyAllowed_404
  · intro e s' h
    simp only [getTasks, h]
    exact writeError_respondsOnly _ _ bodyAllowed_500
  · intro pre post err s' h
    simp only [getTasks, h, getTasksLoop_decode_failure]
    exact writeError_respondsOnly _ _ bodyAllowed_500
  · intro task e s' hd h
    simp only [createTask, hd, h]
    exact writeError_respondsOnly _ _ bodyAllowed_500
  · intro task e s' hd h
    simp only [updateTask, hd, h]
    exact writeError_respondsOnly _ _ bodyAllowed_500
  · intro e s' h
    simp only [deleteTask, h]
    exact writeError_respondsOnly _ _ bodyAllowed_500

/-- C7 amended, at concrete inputs: a body that does not decode, a store that has lost its
connection, and a collection whose second document is not a Task document. -/
theorem C7_checked_failures_follow_table_witness :
    RespondsOnly (createTask failingStore ⟨7000000⟩ .fresh ⟨"1", none⟩ ()).w 400
      (errorBody "Invalid request payload") ∧
    RespondsOnly (updateTask failingStore .fresh ⟨"1", none⟩ ()).w 400
      (errorBody "Invalid request payload") ∧
    RespondsOnly (getTask failingStore .fresh ⟨"1", none⟩ ()).w 404
      (errorBody "Task not found") ∧
    RespondsOnly (getTasks failingStore .fresh ⟨"", none⟩ ()).w 500
      (errorBody "Failed to fetch tasks") ∧
    RespondsOnly (getTasks foreignRowStore .fresh ⟨"", none⟩ ()).w 500
      (errorBody "Failed to decode tasks") ∧
    RespondsOnly
      (createTask failingStore ⟨7000000⟩ .fresh
        ⟨"", some ⟨none, some "a", some false, none⟩⟩ ()).w
      500 (errorBody "Failed to create task") ∧
    RespondsOnly
      (updateTask failingStore .fresh ⟨"1", some ⟨none, some "b", some true, none⟩⟩ ()).w
      500 (errorBody "Failed to update task") ∧
    RespondsOnly (deleteTask failingStore .fresh ⟨"1", none⟩ ()).w 500
      (errorBody "Failed to delete task") :=
  ⟨((C7_checked_failures_follow_table failingStore ⟨7000000⟩ ⟨"1", none⟩ ()).1 rfl).1,
   ((C7_checked_failures_follow_table failingStore ⟨7000000⟩ ⟨"1", none⟩ ()).1 rfl).2,
   (C7_checked_failures_follow_table failingStore ⟨7000000⟩ ⟨"1", none⟩ ()).2.1 _ _ rfl,
   (C7_checked_failures_follow_table failingStore ⟨7000000⟩ ⟨"", none⟩ ()).2.2.1 _ _ rfl,
   (C7_checked_failures_follow_table foreignRowStore ⟨7000000⟩ ⟨"", none⟩ ()).2.2.2.1
      [⟨"1", "a", false, ⟨7000000⟩⟩] [] none _ rfl,
   (C7_checked_failures_follow_table failingStore ⟨7000000⟩
      ⟨"", some ⟨none, some "a", some false, none⟩⟩ ()).2.2.2.2.1 _ _ _ rfl rfl,
   (C7_checked_failures_follow_table failingStore ⟨7000000⟩
      ⟨"1", some ⟨none, some "b", some true, none⟩⟩ ()).2.2.2.2.2.1 _ _ _ rfl rfl,
   (C7_checked_failures_follow_table failingStore ⟨7000000⟩ ⟨"1", none⟩
      ()).2.2.2.2.2.2 _ _ rfl⟩

/-! ## C8: getTasks -/

/-- C8 as stated fails on the empty collection: the scan succeeds, the response is 200,
and the body is the null literal, not the empty array. -/
theorem C8_empty_collection_gives_null :
    (getTasks mapStore .fresh ⟨"", none⟩ ⟨[], 0⟩).w.status = 200 ∧
    (getTasks mapStore .fresh ⟨"", none⟩ ⟨[], 0⟩).w.body = [JSON.null] ∧
    (getTasks mapStore .fresh ⟨"", none⟩ ⟨[], 0⟩).w.body ≠ [JSON.arr []] :=
  ⟨by decide, rfl, fun h => by
    have h' : [JSON.null] = [JSON.arr []] := h
    simp at h'⟩

/-- C8 amended: when the scan succeeds and every row decodes, getTasks responds 200; for
a collection that is not empty the body is the JSON array of its Tasks, one element per
document, in the order of the cursor; for the empty collection it is the null literal.
The response is the same whatever `cur.Err()` holds, so in particular when it holds no
error, which is the scan that succeeds. -/
theorem C8_getTasks_array_or_null {σ : Type} (C : Collection σ) (r : Request) (s s' : σ)
    (ts : List Task) (err : Option StoreError)
    (h : C.Find s = (.ok ⟨ts.map some, err⟩, s')) :
    RespondsOnly (getTasks C .fresh r s).w 200
      (if ts = [] then .null else .arr (ts.map marshalTask)) := by
  simp only [getTasks, h, getTasksLoop_nil_all_decode]
  have hw := writeJSON_respondsOnly StatusOK (.tasks (if ts = [] then .nil else .elems ts))
    bodyAllowed_200
  by_cases hts : ts = []
  · simpa [hts, marshal] using hw
  · simpa [hts, marshal] using hw

/-- C8 amended, at a concrete input: a map store of three documents, scanned to the end;
the third has an ObjectID key, which decodes into the ID as 24 hexadecimal digits. -/
theorem C8_getTasks_array_or_null_witness :
    RespondsOnly
      (getTasks mapStore .fresh ⟨"", none⟩
        ⟨[⟨.str "2", "b", true, ⟨8⟩⟩, ⟨.str "1", "a", false, ⟨7⟩⟩,
          ⟨.objectID 255, "c", false, ⟨9⟩⟩], 256⟩).w 200
      (.arr [marshalTask ⟨"2", "b", true, ⟨8000000⟩⟩,
        marshalTask ⟨"1", "a", false, ⟨7000000⟩⟩,
        marshalTask ⟨"0000000000000000000000ff", "c", false, ⟨9000000⟩⟩]) :=
  C8_getTasks_array_or_null mapStore ⟨"", none⟩
    ⟨[⟨.str "2", "b", true, ⟨8⟩⟩, ⟨.str "1", "a", false, ⟨7⟩⟩,
      ⟨.objectID 255, "c", false, ⟨9⟩⟩], 256⟩ _
    [⟨"2", "b", true, ⟨8000000⟩⟩, ⟨"1", "a", false, ⟨7000000⟩⟩,
      ⟨"0000000000000000000000ff", "c", false, ⟨9000000⟩⟩] none rfl

/-! ## C10: a rejected request -/

/-- C10: when the body does not decode, createTask and updateTask write the 400 response
and return without calling the store: the log of calls and the state of the store are
what they were before the request. -/
theorem C10_rejected_request_leaves_store {σ : Type} (C : Collection σ) (now : Time)
    (r : Request) (s : σ) (log : List StoreCall) (h : r.Body = none) :
    (createTask C.logged now .fresh r (s, log)).store = (s, log) ∧
    (createTask C.logged now .fresh r (s, log)).w.status = 400 ∧
    (createTask C.logged now .fresh r (s, log)).panicked = false ∧
    (updateTask C.logged .fresh r (s, log)).store = (s, log) ∧
    (updateTask C.logged .fresh r (s, log)).w.status = 400 ∧
    (updateTask C.logged .fresh r (s, log)).panicked = false := by
  simp only [createTask, updateTask, h, decodeTask, writeError_fresh _ _ bodyAllowed_400]
  simp [StatusBadRequest]

/-- C10, at a concrete input: a map store of one document and a body that is not JSON. -/
theorem C10_rejected_request_leaves_store_witness :
    (createTask mapStore.logged ⟨9000000⟩ .fresh ⟨"", none⟩
      (⟨[⟨.str "1", "a", false, ⟨7⟩⟩], 0⟩, [])).store =
      (⟨[⟨.str "1", "a", false, ⟨7⟩⟩], 0⟩, []) ∧
    (updateTask mapStore.logged .fresh ⟨"1", none⟩
      (⟨[⟨.str "1", "a", false, ⟨7⟩⟩], 0⟩, [])).store =
      (⟨[⟨.str "1", "a", false, ⟨7⟩⟩], 0⟩, []) :=
  have h := C10_rejected_request_leaves_store mapStore ⟨9000000⟩ ⟨"", none⟩
    ⟨[⟨.str "1", "a", false, ⟨7⟩⟩], 0⟩ [] rfl
  have h' := C10_rejected_request_leaves_store mapStore ⟨9000000⟩ ⟨"1", none⟩
    ⟨[⟨.str "1", "a", false, ⟨7⟩⟩], 0⟩ [] rfl
  ⟨h.1, h'.2.2.2.1⟩

/-! ## Lookups in the map store -/

theorem find?_map_replace (l : List StoredDoc) (k : Key) (new d : StoredDoc)
    (hnew : new._id = k) (h : l.find? (fun x => x._id = k) = some d) :
    (l.map (fun x => if x._id = k then new else x)).find? (fun x => x._id = k) = some new := by
  induction l with
  | nil => simp at h
  | cons x xs ih =>
      by_cases hx : x._id = k
      · simp [hx, hnew]
      · simp only [List.find?_cons, hx, decide_False] at h
        simp [List.find?_cons, hx, ih h]

theorem find?_append_new (l : List StoredDoc) (k : Key) (new : StoredDoc)
    (hnew : new._id = k) (h : l.find? (fun x => x._id = k) = none) :
    (l ++ [new]).find? (fun x => x._id = k) = some new := by
  simp [List.find?_append, h, hnew]

theorem truncated_of_whole_milliseconds (t : Time) (h : t.ns % 1000000 = 0) :
    t.truncated = t := by
  cases t with
  | mk ns =>
      simp only [Time.truncated, Time.toDateTime, DateTime.toTime, Time.mk.injEq]
      exact Nat.div_mul_cancel (Nat.dvd_of_mod_eq_zero h)

/-! ## C2: the id of the request body -/

/-- C2 as stated fails: the id of the body reaches the store. Two create requests that
differ only in their id hand two different documents to InsertOne, each with the id of
its request as primary key, and the 201 response carries the id of the request. -/
theorem C2_client_id_reaches_insert :
    (createTask mapStore.logged ⟨9000000⟩ .fresh
      ⟨"", some ⟨some "x", some "a", some false, none⟩⟩
      (⟨[], 0⟩, [])).store.2 = [.InsertOne ⟨some "x", "a", false, ⟨9⟩⟩] ∧
    (createTask mapStore.logged ⟨9000000⟩ .fresh
      ⟨"", some ⟨some "y", some "a", some false, none⟩⟩
      (⟨[], 0⟩, [])).store.2 = [.InsertOne ⟨some "y", "a", false, ⟨9⟩⟩] ∧
    (createTask mapStore.logged ⟨9000000⟩ .fresh
      ⟨"", some ⟨some "x", some "a", some false, none⟩⟩
      (⟨[], 0⟩, [])).store.2 ≠
    (createTask mapStore.logged ⟨9000000⟩ .fresh
      ⟨"", some ⟨some "y", some "a", some false, none⟩⟩
      (⟨[], 0⟩, [])).store.2 ∧
    (createTask mapStore ⟨9000000⟩ .fresh ⟨"", some ⟨some "x", some "a", some false, none⟩⟩
      ⟨[], 0⟩).w.status = 201 ∧
    (createTask mapStore ⟨9000000⟩ .fresh ⟨"", some ⟨some "x", some "a", some false, none⟩⟩
      ⟨[], 0⟩).w.body = [marshalTask ⟨"x", "a", false, ⟨9000000⟩⟩] :=
  ⟨by decide, by decide, by decide, by decide, rfl⟩

/-- C2 amended: createTask hands the id of the body on to the store. For every body that
decodes, the one call on the store is an InsertOne of the document whose primary key is
the id of the body when that is a string that is not empty, and that has no primary key
when the id is absent or empty; its name and completed are those of the body and its
createdAt is the clock reading, as the datetime of whole milliseconds the store keeps.
When the store reports a string key, the response is 201 with the Task JSON whose id is
the key the store reported and whose createdAt is the clock reading. -/
theorem C2_createTask_inserts_body_id {σ : Type} (C : Collection σ) (now : Time)
    (r : Request) (b : TaskBody) (s : σ) (hb : r.Body = some b) :
    (createTask C.logged now .fresh r (s, [])).store.2 =
      [.InsertOne
        ⟨if b.id.getD "" = "" then none else some (b.id.getD ""),
          b.name.getD "", b.completed.getD false, now.toDateTime⟩] ∧
    (∀ k s',
      C.InsertOne
        ⟨if b.id.getD "" = "" then none else some (b.id.getD ""),
          b.name.getD "", b.completed.getD false, now.toDateTime⟩ s = (.ok (.str k), s') →
      RespondsOnly (createTask C now .fresh r s).w 201
        (marshalTask ⟨k, b.name.getD "", b.completed.getD false, now⟩)) := by
  constructor
  · simp only [createTask, hb, decodeTask, bsonMarshal, Collection.logged]
    split <;> rename_i h <;> simp only [Prod.mk.injEq] at h <;> simp [← h.2]
  · intro k s' h
    simp only [createTask, hb, decodeTask, bsonMarshal, h]
    exact writeJSON_respondsOnly _ _ bodyAllowed_201

/-- C2 amended, at concrete inputs: a body with the id `x` and a body without id, on the
empty map store. -/
theorem C2_createTask_inserts_body_id_witness :
    (createTask mapStore.logged ⟨9000000⟩ .fresh
      ⟨"", some ⟨some "x", some "a", some false, none⟩⟩
      (⟨[], 0⟩, [])).store.2 = [.InsertOne ⟨some "x", "a", false, ⟨9⟩⟩] ∧
    (createTask mapStore.logged ⟨9000000⟩ .fresh
      ⟨"", some ⟨none, some "a", some false, none⟩⟩
      (⟨[], 0⟩, [])).store.2 = [.InsertOne ⟨none, "a", false, ⟨9⟩⟩] ∧
    RespondsOnly
      (createTask mapStore ⟨9000000⟩ .fresh
        ⟨"", some ⟨some "x", some "a", some false, none⟩⟩
        ⟨[], 0⟩).w 201 (marshalTask ⟨"x", "a", false, ⟨9000000⟩⟩) :=
  ⟨(C2_createTask_inserts_body_id mapStore ⟨9000000⟩
      ⟨"", some ⟨some "x", some "a", some false, none⟩⟩ _ ⟨[], 0⟩ rfl).1,
   (C2_createTask_inserts_body_id mapStore ⟨9000000⟩
      ⟨"", some ⟨none, some "a", some false, none⟩⟩ _ ⟨[], 0⟩ rfl).1,
   (C2_createTask_inserts_body_id mapStore ⟨9000000⟩
      ⟨"", some ⟨some "x", some "a", some false, none⟩⟩ _ ⟨[], 0⟩ rfl).2 "x" _ rfl⟩

/-! ## C4: the key the store reports -/

/-- C4, evaluated on the code: for the body `{"name":"a","completed":false}` the map store
inserts the document under a new ObjectID and reports that key; createTask then panics
on the assertion that the key is a string, and no response is written. -/
theorem C4_createTask_panics_on_objectID :
    (createTask mapStore ⟨9000000⟩ .fresh ⟨"", some ⟨none, some "a", some false, none⟩⟩
      ⟨[], 0⟩).panicked = true ∧
    (createTask mapStore ⟨9000000⟩ .fresh ⟨"", some ⟨none, some "a", some false, none⟩⟩
      ⟨[], 0⟩).w.wroteHeader = false ∧
    (createTask mapStore ⟨9000000⟩ .fresh ⟨"", some ⟨none, some "a", some false, none⟩⟩
      ⟨[], 0⟩).w.status ≠ 201 ∧
    (createTask mapStore ⟨9000000⟩ .fresh ⟨"", some ⟨none, some "a", some false, none⟩⟩
      ⟨[], 0⟩).w.body = [] ∧
    (createTask mapStore ⟨9000000⟩ .fresh ⟨"", some ⟨none, some "a", some false, none⟩⟩
      ⟨[], 0⟩).store = ⟨[⟨.objectID 0, "a", false, ⟨9⟩⟩], 1⟩ :=
  ⟨by decide, by decide, by decide, rfl, by decide⟩

/-! ## C3 and C9: the handlers over the map store -/

theorem mapStore_InsertOne_present (doc : Doc) (s : MapStore) (d : StoredDoc)
    (h : s.lookup (s.insertKey doc) = some d) :
    mapStore.InsertOne doc s = (.error (.other "duplicate key"), s) := by
  simp only [mapStore, h]

theorem mapStore_InsertOne_absent (doc : Doc) (s : MapStore)
    (h : s.lookup (s.insertKey doc) = none) :
    mapStore.InsertOne doc s =
      (.ok (s.insertKey doc),
        { docs := s.docs ++ [⟨s.insertKey doc, doc.name, doc.completed, doc.createdAt⟩],
          nextObjectID := if doc._id.isSome then s.nextObjectID else s.nextObjectID + 1 }) := by
  simp only [mapStore, h]

theorem mapStore_ReplaceOne_refused (i : String) (doc : Doc) (s : MapStore) (d : StoredDoc)
    (h : s.lookup (.str i) = some d) (hc : doc._id.isSome ∧ doc._id ≠ some i) :
    mapStore.ReplaceOne i doc s = (.error (.other "_id is immutable"), s) := by
  simp only [mapStore, h]
  exact if_pos hc

theorem mapStore_ReplaceOne_replaced (i : String) (doc : Doc) (s : MapStore) (d : StoredDoc)
    (h : s.lookup (.str i) = some d) (hc : ¬ (doc._id.isSome ∧ doc._id ≠ some i)) :
    mapStore.ReplaceOne i doc s =
      (.ok (),
        { s with
          docs := s.docs.map (fun x =>
            if x._id = .str i then ⟨.str i, doc.name, doc.completed, doc.createdAt⟩ else x) }) := by
  simp only [mapStore, h]
  exact if_neg hc

theorem getTask_mapStore_found (s : MapStore) (i : String) (d : StoredDoc) (q : Option TaskBody)
    (h : s.lookup (.str i) = some d) :
    RespondsOnly (getTask mapStore .fresh ⟨i, q⟩ s).w 200
      (marshalTask ⟨i, d.name, d.completed, d.createdAt.toTime⟩) := by
  simp only [getTask, mapStore, h]
  exact writeJSON_respondsOnly _ _ bodyAllowed_200

/-- C3 as stated fails: a Task whose stored createdAt is the millisecond 1700, replaced
with the body `{"name":"b","completed":true}`, is answered 200, and the document stored
under its id then has the zero instant as createdAt: getTask returned the instant of
millisecond 1700 before the update and returns the zero instant after it. -/
theorem C3_update_resets_createdAt :
    (getTask mapStore .fresh ⟨"1", none⟩ ⟨[⟨.str "1", "a", false, ⟨1700⟩⟩], 0⟩).w.body =
      [marshalTask ⟨"1", "a", false, ⟨1700000000⟩⟩] ∧
    (updateTask mapStore .fresh ⟨"1", some ⟨none, some "b", some true, none⟩⟩
      ⟨[⟨.str "1", "a", false, ⟨1700⟩⟩], 0⟩).w.status = 200 ∧
    (updateTask mapStore .fresh ⟨"1", some ⟨none, some "b", some true, none⟩⟩
      ⟨[⟨.str "1", "a", false, ⟨1700⟩⟩], 0⟩).store.lookup (.str "1") =
      some ⟨.str "1", "b", true, ⟨0⟩⟩ ∧
    (getTask mapStore .fresh ⟨"1", none⟩
      (updateTask mapStore .fresh ⟨"1", some ⟨none, some "b", some true, none⟩⟩
        ⟨[⟨.str "1", "a", false, ⟨1700⟩⟩], 0⟩).store).w.body =
      [marshalTask ⟨"1", "b", true, ⟨0⟩⟩] ∧
    (⟨0⟩ : Time) ≠ ⟨1700000000⟩ :=
  ⟨rfl, by decide, by decide, rfl, by decide⟩

/-- C3 amended: an update replaces createdAt along with name and completed. For every
stored Task with id i and every body b that decodes, after updateTask on path id i
responds 200 the document stored under i has name, completed and createdAt taken from b,
createdAt as the datetime of whole milliseconds of the instant in b and the zero instant
when b has none, and a getTask of i that follows responds 200 with the Task of that
document. -/
theorem C3_updateTask_takes_createdAt_from_body (s : MapStore) (i : String) (d : StoredDoc)
    (b : TaskBody) (h : s.lookup (.str i) = some d)
    (h200 : (updateTask mapStore .fresh ⟨i, some b⟩ s).w.status = 200) :
    (updateTask mapStore .fresh ⟨i, some b⟩ s).store.lookup (.str i) =
      some ⟨.str i, b.name.getD "", b.completed.getD false,
        (b.createdAt.getD Time.zero).toDateTime⟩ ∧
    ∀ q, RespondsOnly
      (getTask mapStore .fresh ⟨i, q⟩ (updateTask mapStore .fresh ⟨i, some b⟩ s).store).w 200
      (marshalTask ⟨i, b.name.getD "", b.completed.getD false,
        (b.createdAt.getD Time.zero).truncated⟩) := by
  have hstore : (updateTask mapStore .fresh ⟨i, some b⟩ s).store.lookup (.str i) =
      some ⟨.str i, b.name.getD "", b.completed.getD false,
        (b.createdAt.getD Time.zero).toDateTime⟩ := by
    by_cases hc : (bsonMarshal ⟨b.id.getD "", b.name.getD "", b.completed.getD false,
        b.createdAt.getD Time.zero⟩)._id.isSome ∧
        (bsonMarshal ⟨b.id.getD "", b.name.getD "", b.completed.getD false,
          b.createdAt.getD Time.zero⟩)._id ≠ some i
    · simp only [updateTask, decodeTask, mapStore_ReplaceOne_refused i _ s d h hc,
        writeError_fresh _ _ bodyAllowed_500] at h200
      simp [StatusInternalServerError] at h200
    · simp only [updateTask, decodeTask, mapStore_ReplaceOne_replaced i _ s d h hc,
        MapStore.lookup]
      exact find?_map_replace s.docs (.str i)
        ⟨.str i, b.name.getD "", b.completed.getD false,
          (b.createdAt.getD Time.zero).toDateTime⟩ d rfl h
  exact ⟨hstore, fun q => getTask_mapStore_found _ i _ q hstore⟩

/-- C3 amended, at a concrete input: the replacement of a stored Task by a body that
carries a createdAt of its own, one nanosecond after the millisecond 5. -/
theorem C3_updateTask_takes_createdAt_from_body_witness :
    (updateTask mapStore .fresh ⟨"1", some ⟨some "1", some "b", some true, some ⟨5000001⟩⟩⟩
      ⟨[⟨.str "1", "a", false, ⟨1700⟩⟩], 0⟩).store.lookup (.str "1") =
      some ⟨.str "1", "b", true, ⟨5⟩⟩ :=
  (C3_updateTask_takes_createdAt_from_body ⟨[⟨.str "1", "a", false, ⟨1700⟩⟩], 0⟩ "1"
    ⟨.str "1", "a", false, ⟨1700⟩⟩ ⟨some "1", some "b", some true, some ⟨5000001⟩⟩
    (by decide) (by decide)).1

/-- C9 as stated fails: a create at the clock reading 825822881 ns responds 201 with that
reading as createdAt; the store keeps whole milliseconds, so the getTask issued next
responds 200 with createdAt 825000000 ns, and the two Task JSON differ. -/
theorem C9_fetch_returns_truncated_createdAt :
    (createTask mapStore ⟨825822881⟩ .fresh
      ⟨"", some ⟨some "x", some "a", some false, none⟩⟩ ⟨[], 0⟩).w.status = 201 ∧
    (createTask mapStore ⟨825822881⟩ .fresh
      ⟨"", some ⟨some "x", some "a", some false, none⟩⟩ ⟨[], 0⟩).w.body =
      [marshalTask ⟨"x", "a", false, ⟨825822881⟩⟩] ∧
    (getTask mapStore .fresh ⟨"x", none⟩
      (createTask mapStore ⟨825822881⟩ .fresh
        ⟨"", some ⟨some "x", some "a", some false, none⟩⟩ ⟨[], 0⟩).store).w.status = 200 ∧
    (getTask mapStore .fresh ⟨"x", none⟩
      (createTask mapStore ⟨825822881⟩ .fresh
        ⟨"", some ⟨some "x", some "a", some false, none⟩⟩ ⟨[], 0⟩).store).w.body =
      [marshalTask ⟨"x", "a", false, ⟨825000000⟩⟩] ∧
    (⟨825000000⟩ : Time) ≠ ⟨825822881⟩ :=
  ⟨by decide, rfl, by decide, rfl, by decide⟩

/-- C9 amended: over the map store, whenever createTask responds 201, the body of the
request decoded, the response is the JSON of a Task T whose name and completed are those
submitted and whose createdAt is the clock reading, and a getTask of T.ID issued next
responds 200 with the JSON of a Task of the same id, name and completed whose createdAt
is that of T truncated to the millisecond; the two createdAt are equal when the clock
reading is a whole number of milliseconds. -/
theorem C9_create_then_fetch_truncates_createdAt (s : MapStore) (now : Time) (r : Request)
    (h : (createTask mapStore now .fresh r s).w.status = 201) :
    ∃ b T, r.Body = some b ∧ T.Name = b.name.getD "" ∧ T.Completed = b.completed.getD false ∧
      T.CreatedAt = now ∧
      RespondsOnly (createTask mapStore now .fresh r s).w 201 (marshalTask T) ∧
      (∀ q, RespondsOnly
        (getTask mapStore .fresh ⟨T.ID, q⟩ (createTask mapStore now .fresh r s).store).w 200
        (marshalTask ⟨T.ID, T.Name, T.Completed, T.CreatedAt.truncated⟩)) ∧
      (now.ns % 1000000 = 0 → T.CreatedAt.truncated = T.CreatedAt) := by
  cases hB : r.Body with
  | none =>
      simp only [createTask, hB, decodeTask, writeError_fresh _ _ bodyAllowed_400] at h
      simp [StatusBadRequest] at h
  | some b =>
      refine ⟨b, ⟨b.id.getD "", b.name.getD "", b.completed.getD false, now⟩, rfl, rfl, rfl,
        rfl, ?_⟩
      cases hl : s.lookup (s.insertKey (bsonMarshal
          ⟨b.id.getD "", b.name.getD "", b.completed.getD false, now⟩)) with
      | some d =>
          simp only [createTask, hB, decodeTask, mapStore_InsertOne_present _ s d hl,
            writeError_fresh _ _ bodyAllowed_500] at h
          simp [StatusInternalServerError] at h
      | none =>
          have hins := mapStore_InsertOne_absent _ s hl
          by_cases hid : b.id.getD "" = ""
          · have hk : s.insertKey (bsonMarshal
                ⟨b.id.getD "", b.name.getD "", b.completed.getD false, now⟩) =
                .objectID s.nextObjectID := by
              simp [MapStore.insertKey, bsonMarshal, hid]
            rw [hk] at hins
            simp only [createTask, hB, decodeTask, hins] at h
            simp [ResponseWriter.fresh] at h
          · have hk : s.insertKey (bsonMarshal
                ⟨b.id.getD "", b.name.getD "", b.completed.getD false, now⟩) =
                .str (b.id.getD "") := by
              simp [MapStore.insertKey, bsonMarshal, hid]
            rw [hk] at hins hl
            simp only [createTask, hB, decodeTask, hins]
            refine ⟨writeJSON_respondsOnly _ _ bodyAllowed_201, fun q => ?_,
              fun hm => truncated_of_whole_milliseconds now hm⟩
            have hfind := find?_append_new s.docs (.str (b.id.getD ""))
              ⟨.str (b.id.getD ""), b.name.getD "", b.completed.getD false,
                now.toDateTime⟩ rfl hl
            exact getTask_mapStore_found _ (b.id.getD "")
              ⟨.str (b.id.getD ""), b.name.getD "", b.completed.getD false,
                now.toDateTime⟩ q hfind

/-- C9 amended, at a concrete input: a create with the id `x` on the empty store at the
clock reading 825822881 ns, then the fetch. -/
theorem C9_create_then_fetch_truncates_createdAt_witness :
    (createTask mapStore ⟨825822881⟩ .fresh
      ⟨"", some ⟨some "x", some "a", some false, none⟩⟩ ⟨[], 0⟩).w.status = 201 ∧
    ∃ b T, (some ⟨some "x", some "a", some false, none⟩ : Option TaskBody) = some b ∧
      T.Name = b.name.getD "" ∧ T.Completed = b.completed.getD false ∧
      T.CreatedAt = ⟨825822881⟩ ∧
      RespondsOnly
        (createTask mapStore ⟨825822881⟩ .fresh
          ⟨"", some ⟨some "x", some "a", some false, none⟩⟩ ⟨[], 0⟩).w 201 (marshalTask T) ∧
      (∀ q, RespondsOnly
        (getTask mapStore .fresh ⟨T.ID, q⟩
          (createTask mapStore ⟨825822881⟩ .fresh
            ⟨"", some ⟨some "x", some "a", some false, none⟩⟩ ⟨[], 0⟩).store).w 200
        (marshalTask ⟨T.ID, T.Name, T.Completed, T.CreatedAt.truncated⟩)) ∧
      ((⟨825822881⟩ : Time).ns % 1000000 = 0 → T.CreatedAt.truncated = T.CreatedAt) :=
  ⟨by decide,
   C9_create_then_fetch_truncates_createdAt ⟨[], 0⟩ ⟨825822881⟩
     ⟨"", some ⟨some "x", some "a", some false, none⟩⟩ (by decide)⟩

end OrdersApi
